import Mathlib

/-!
Verification development for the opencode-claude-bridge proxy
(src/anthropic-proxy/src/proxy.ts).

The proxy translates Anthropic-Messages-shaped HTTP requests into the
backend agent server's session/message protocol.  We give a shallow
embedding of its request-translation and session-management logic:

* `extractTextFromContent` — normalizes a message's `content` field
  (a JS value: string, array of parts, object, null, number, boolean)
  into a single string, exactly as the source function does.
* `estimateTokens` — the `Math.ceil(length / 4)` token estimator; on
  naturals, `ceil (n / 4) = (n + 3) / 4`.
* `createSession` / `ensureSession` / `handleResetSession` — the session
  manager.  Backend HTTP calls are modelled as oracle functions passed
  in, and every operation additionally returns the list of backend
  calls it performed, so "no backend call is made" is a provable
  statement about that log.
* `sendMessage` — the message relay: picks the most recent forwardable
  user message, sends its extracted text as a single text part, and
  parses the reply.
* `handleMessages`, `handleModelSelect`, `handleResetStats` — the HTTP
  handlers, as state-passing functions on `ProxyState`.

JavaScript exceptions are modelled with `Except String`; the
`/v1/messages` route's try/catch that converts any thrown error into an
HTTP 500 `api_error` body is the `.apiError` response constructor.
-/

namespace OCBridge

/-- Values the proxy may see in a message's `content` field.  `obj`
models a JS object through the only field the proxy ever reads from it,
the optional `text` field. -/
inductive JsValue where
  | str (s : String)
  | arr (elems : List JsValue)
  | obj (text : Option String)
  | null
  | num (n : Int)
  | bool (b : Bool)
deriving Repr

/-- Mapping applied to each element of an array-shaped `content`:
`typeof c === "string" ? c : c?.text || ""` in the source.  A string
maps to itself; an object maps to its `text` field when present (a
present-but-empty `text` and an absent one both yield `""`, exactly as
the JS `|| ""` does); every other shape maps to the empty string. -/
def contentElemText : JsValue → String
  | .str s => s
  | .obj (some t) => t
  | _ => ""

/-- Embedding of `extractTextFromContent` (proxy.ts lines 52-58):
a string is returned unchanged; an array is mapped elementwise by
`contentElemText` and joined with no separator; any other shape yields
the empty string.  Totality is by construction. -/
def extractTextFromContent : JsValue → String
  | .str s => s
  | .arr elems => String.join (elems.map contentElemText)
  | _ => ""

/-- The token estimator `Math.ceil(length / 4)`, written on naturals as
`(n + 3) / 4`. -/
def estimateTokens (s : String) : Nat :=
  (s.length + 3) / 4

/-- A chat message as the proxy reads it: a `role` and a `content`
value of arbitrary shape. -/
structure Message where
  role : String
  content : JsValue
deriving Repr

/-- Body of the outbound `POST {backend}/session` call: the proxy sends
`{workspace, mode: "agent"}`. -/
structure SessionRequest where
  workspace : String
  mode : String
deriving Repr, DecidableEq

/-- Outcome of the backend's session-creation endpoint: a successful
response carrying the new session id, or a non-ok HTTP response with
its status text. -/
inductive SessionResponse where
  | ok (id : String)
  | notOk (statusText : String)
deriving Repr, DecidableEq

/-- Embedding of `createSession` (proxy.ts lines 31-50).  The backend is
an oracle from request body to response.  Returns the result (the id,
or the thrown error message on a non-ok response) together with the
request it sent, so callers can log the backend call. -/
def createSession (backend : SessionRequest → SessionResponse)
    (workspace : String) : Except String String × SessionRequest :=
  let req : SessionRequest := { workspace := workspace, mode := "agent" }
  match backend req with
  | .ok id => (.ok id, req)
  | .notOk statusText =>
      (.error ("Failed to create session: " ++ statusText), req)

/-- One part of the backend's reply to a message: `{type, text}`. -/
structure ReplyPart where
  type : String
  text : String
deriving Repr, DecidableEq

/-- The `tokens` object of the backend reply's `info` field; `total`
may be absent. -/
structure TokenTotals where
  total : Option Nat
deriving Repr, DecidableEq

/-- The optional `info` field of the backend reply; its `tokens` field
may itself be absent. -/
structure ReplyInfo where
  tokens : Option TokenTotals
deriving Repr, DecidableEq

/-- The backend's reply to a per-session message call:
`{parts?: [...], info?: {tokens?: {total?}}}`. -/
structure BackendReply where
  parts : Option (List ReplyPart)
  info : Option ReplyInfo
deriving Repr, DecidableEq

/-- Outcome of the backend's per-session message endpoint. -/
inductive MessageResponse where
  | ok (reply : BackendReply)
  | notOk (statusText : String)
deriving Repr, DecidableEq

/-- The outbound `POST {backend}/session/{id}/message` call as the
relay makes it: the session id in the URL and the single text part's
text (`parts: [{type: "text", text}]`). -/
structure MessageCall where
  sessionId : String
  text : String
deriving Repr, DecidableEq

/-- The relay's selection predicate (proxy.ts lines 64-72): the message
has role `"user"` and its extracted text is truthy (non-empty), longer
than 2 characters, and not the literal string `"count"`. -/
def isForwardable (m : Message) : Bool :=
  m.role == "user" &&
    ((extractTextFromContent m.content != "") &&
     (decide ((extractTextFromContent m.content).length > 2) &&
      (extractTextFromContent m.content != "count")))

/-- The relay scans the copied-and-reversed message list and stops at
the first forwardable entry, i.e. `find?` over the reversed list. -/
def selectUserMessage (messages : List Message) : Option Message :=
  messages.reverse.find? isForwardable

/-- Assembly of the reply text (proxy.ts lines 100-106): fold over the
parts, appending `part.text` whenever `part.type === "text"`. -/
def concatTextParts (parts : List ReplyPart) : String :=
  parts.foldl (fun acc p => if p.type == "text" then acc ++ p.text else acc) ""

/-- Token extraction from the reply (proxy.ts lines 108-110):
`if (data.info?.tokens) tokens = data.info.tokens.total || 0`, so an
absent `info`, absent `tokens`, or absent `total` all give 0. -/
def replyTokens (data : BackendReply) : Nat :=
  match data.info with
  | some i =>
      match i.tokens with
      | some t => t.total.getD 0
      | none => 0
  | none => 0

/-- Embedding of `sendMessage` (proxy.ts lines 60-113).  Returns the
result (`{text, tokens}`, or the thrown error message) together with
the list of backend message calls performed (empty on the short-circuit
path, a single call otherwise). -/
def sendMessage (backend : MessageCall → MessageResponse)
    (sessionId : String) (messages : List Message) :
    Except String (String × Nat) × List MessageCall :=
  match selectUserMessage messages with
  | none => (.ok ("OK", 0), [])
  | some m =>
      let combinedContent := extractTextFromContent m.content
      let call : MessageCall := { sessionId := sessionId, text := combinedContent }
      match backend call with
      | .notOk statusText =>
          (.error ("Failed to send message: " ++ statusText), [call])
      | .ok data =>
          (.ok (concatTextParts (data.parts.getD []), replyTokens data), [call])

/-- One entry of the hardcoded `AVAILABLE_MODELS` registry. -/
structure Model where
  id : String
  name : String
  provider : String
deriving Repr, DecidableEq

/-- The model registry hardcoded in proxy.ts lines 18-29. -/
def AVAILABLE_MODELS : List Model :=
  [ { id := "minimax-m2.5-free", name := "MiniMax M2.5 Free", provider := "OpenCode" },
    { id := "anthropic/claude-sonnet-4-5-20250929", name := "Claude Sonnet 4.5", provider := "Anthropic" },
    { id := "anthropic/claude-opus-4-5-20250929", name := "Claude Opus 4.5", provider := "Anthropic" },
    { id := "anthropic/claude-haiku-4-5-20250929", name := "Claude Haiku 4.5", provider := "Anthropic" },
    { id := "openai/gpt-4o", name := "GPT-4o", provider := "OpenAI" },
    { id := "openai/gpt-4o-mini", name := "GPT-4o Mini", provider := "OpenAI" },
    { id := "google/gemini-2-flash", name := "Gemini 2 Flash", provider := "Google" },
    { id := "google/gemini-1.5-pro", name := "Gemini 1.5 Pro", provider := "Google" },
    { id := "ollama/llama3", name := "Llama 3", provider := "Ollama" },
    { id := "ollama/codellama", name := "CodeLlama", provider := "Ollama" } ]

/-- The proxy's process-wide mutable state (proxy.ts lines 13-16):
the held session id, the two usage counters, and the selected model. -/
structure ProxyState where
  currentSessionId : Option String
  totalTokensUsed : Nat
  totalRequests : Nat
  currentModel : String
deriving Repr, DecidableEq

/-- The state at process start. -/
def initialState : ProxyState :=
  { currentSessionId := none, totalTokensUsed := 0, totalRequests := 0,
    currentModel := "minimax-m2.5-free" }

/-- Response of `POST /api/model` (proxy.ts lines 151-161): success with
the selected registry entry, or `res.status(400)` with
`{success: false, error: "Model not found"}`. -/
inductive ModelSelectResponse where
  | ok (model : Model)
  | failure (status : Nat) (error : String)
deriving Repr, DecidableEq

/-- Embedding of the `POST /api/model` handler: look the requested id up
in `AVAILABLE_MODELS`; when found, set `currentModel` and null out
`currentSessionId` (no backend call is involved anywhere in this
handler); when not found, answer 400 "Model not found" and leave the
state untouched. -/
def handleModelSelect (st : ProxyState) (modelId : String) :
    ModelSelectResponse × ProxyState :=
  match AVAILABLE_MODELS.find? (fun m => m.id == modelId) with
  | some model =>
      (.ok model, { st with currentModel := modelId, currentSessionId := none })
  | none => (.failure 400 "Model not found", st)

/-- Embedding of the `POST /api/reset-stats` handler (proxy.ts lines
163-167): zero both counters unconditionally. -/
def handleResetStats (st : ProxyState) : ProxyState :=
  { st with totalTokensUsed := 0, totalRequests := 0 }

/-- Embedding of the `POST /api/reset-session` handler (proxy.ts lines
169-172): `currentSessionId = await createSession(process.cwd())`.
When the creation promise rejects, the assignment never runs, so the
previously held id is retained.  Returns the handler outcome, the
resulting state, and the session-creation call performed. -/
def handleResetSession (backendSession : SessionRequest → SessionResponse)
    (cwd : String) (st : ProxyState) :
    Except String String × ProxyState × List SessionRequest :=
  match createSession backendSession cwd with
  | (.ok id, req) => (.ok id, { st with currentSessionId := some id }, [req])
  | (.error e, req) => (.error e, st, [req])

/-- The lazy session-establishment step of the `/v1/messages` handler
(proxy.ts lines 227-229): when an id is held it is used as is with no
backend call; otherwise `createSession` runs and, on success only, its
id is stored.  Returns the session id (or error), the resulting state,
and the session-creation calls performed. -/
def ensureSession (backendSession : SessionRequest → SessionResponse)
    (cwd : String) (st : ProxyState) :
    Except String String × ProxyState × List SessionRequest :=
  match st.currentSessionId with
  | some sid => (.ok sid, st, [])
  | none =>
      match createSession backendSession cwd with
      | (.ok id, req) => (.ok id, { st with currentSessionId := some id }, [req])
      | (.error e, req) => (.error e, st, [req])

/-- Hexadecimal digit for `\u00XX` escapes. -/
def hexDigit (n : Nat) : Char :=
  if n < 10 then Char.ofNat (48 + n) else Char.ofNat (87 + n % 16)

/-- JSON string escaping as `JSON.stringify` performs it on the
characters the proxy can see: quote, backslash, and the control
characters. -/
def escapeJsonChar (c : Char) : String :=
  if c = '"' then "\\\""
  else if c = '\\' then "\\\\"
  else if c = Char.ofNat 8 then "\\b"
  else if c = Char.ofNat 12 then "\\f"
  else if c = '\n' then "\\n"
  else if c = '\r' then "\\r"
  else if c = '\t' then "\\t"
  else if c.toNat < 32 then
    "\\u00" ++ String.singleton (hexDigit (c.toNat / 16))
      ++ String.singleton (hexDigit (c.toNat % 16))
  else String.singleton c

/-- A JSON string literal: the escaped characters between quotes. -/
def quoteJson (s : String) : String :=
  "\"" ++ String.join (s.data.map escapeJsonChar) ++ "\""

mutual

/-- Model of `JSON.stringify` on the content values of this embedding,
used by the `/v1/messages` handler for input-token accounting.  An
`obj` serializes through the field this embedding retains. -/
def stringifyJsValue : JsValue → String
  | .str s => quoteJson s
  | .arr elems => "[" ++ String.intercalate "," (stringifyJsList elems) ++ "]"
  | .obj (some t) => "\x7b\"text\":" ++ quoteJson t ++ "\x7d"
  | .obj none => "\x7b\x7d"
  | .null => "null"
  | .num n => toString n
  | .bool b => if b then "true" else "false"

/-- List companion of `stringifyJsValue`. -/
def stringifyJsList : List JsValue → List String
  | [] => []
  | v :: vs => stringifyJsValue v :: stringifyJsList vs

end

/-- A serialized message object, keys in the order the Anthropic client
sends them. -/
def stringifyMessage (m : Message) : String :=
  "\x7b\"role\":" ++ quoteJson m.role ++ ",\"content\":"
    ++ stringifyJsValue m.content ++ "\x7d"

/-- Model of `JSON.stringify(messages)` from proxy.ts line 244. -/
def stringifyMessages (msgs : List Message) : String :=
  "[" ++ String.intercalate "," (msgs.map stringifyMessage) ++ "]"

/-- Body of a `POST /v1/messages` request, through the fields the
handler reads: the optional `max_tokens` and the optional `messages`
array. -/
structure MessagesBody where
  max_tokens : Option Nat
  messages : Option (List Message)
deriving Repr

/-- One `{type, text}` block of the response envelope's `content`. -/
structure ContentBlock where
  type : String
  text : String
deriving Repr, DecidableEq

/-- The `usage` object of the response envelope. -/
structure Usage where
  input_tokens : Nat
  output_tokens : Nat
deriving Repr, DecidableEq

/-- The chat response envelope (proxy.ts lines 236-247), through its
deterministic fields; the generated `msg_${Date.now()}` id and the
constant `type: "message"` are left out. -/
structure ChatEnvelope where
  role : String
  content : List ContentBlock
  model : String
  stop_reason : String
  usage : Usage
deriving Repr, DecidableEq

/-- The three response shapes of the `POST /v1/messages` route: the
count-only `{tokens}` body, the chat envelope, and the catch-all HTTP
500 `{error: {type: "api_error", message}}`. -/
inductive MessagesResponse where
  | countTokens (tokens : Nat)
  | chat (envelope : ChatEnvelope)
  | apiError (message : String)
deriving Repr, DecidableEq

/-- The backend calls a `/v1/messages` request performed. -/
structure CallLog where
  sessionCalls : List SessionRequest
  messageCalls : List MessageCall
deriving Repr, DecidableEq

/-- The empty call log. -/
def CallLog.empty : CallLog :=
  { sessionCalls := [], messageCalls := [] }

/-- The count-only sum (proxy.ts lines 217-221): per message,
`Math.ceil` of the extracted text's length over 4, summed. -/
def countTokensSum (messages : List Message) : Nat :=
  messages.foldl
    (fun acc msg => acc + estimateTokens (extractTextFromContent msg.content)) 0

/-- The error message of the TypeError JavaScript raises when
`sendMessage` spreads an absent `messages` value (`[...messages]`). -/
def spreadTypeError : String :=
  "messages is not iterable"

/-- Embedding of the `POST /v1/messages` handler (proxy.ts lines
213-254).  When `max_tokens` is absent and `messages` is present
(truthy), the count-only branch answers `{tokens}` from local
computation.  Otherwise the chat branch runs: ensure a session, then
relay via `sendMessage`; an absent `messages` makes the relay's spread
throw, and every thrown error becomes an `apiError` response with the
state's counters unchanged.  On relay success the counters grow and the
envelope is assembled. -/
def handleMessages (backendSession : SessionRequest → SessionResponse)
    (backendMessage : MessageCall → MessageResponse)
    (cwd : String) (st : ProxyState) (body : MessagesBody) :
    MessagesResponse × ProxyState × CallLog :=
  if body.max_tokens.isNone && body.messages.isSome then
    (.countTokens (countTokensSum (body.messages.getD [])), st, CallLog.empty)
  else
    match ensureSession backendSession cwd st with
    | (.error e, st1, sCalls) =>
        (.apiError e, st1, { sessionCalls := sCalls, messageCalls := [] })
    | (.ok sid, st1, sCalls) =>
        match body.messages with
        | none =>
            (.apiError spreadTypeError, st1,
             { sessionCalls := sCalls, messageCalls := [] })
        | some msgs =>
            match sendMessage backendMessage sid msgs with
            | (.error e, mCalls) =>
                (.apiError e, st1,
                 { sessionCalls := sCalls, messageCalls := mCalls })
            | (.ok (text, tokens), mCalls) =>
                (.chat { role := "assistant",
                         content := [{ type := "text", text := text }],
                         model := st1.currentModel,
                         stop_reason := "end_turn",
                         usage := { input_tokens := estimateTokens (stringifyMessages msgs),
                                    output_tokens := estimateTokens text } },
                 { st1 with totalRequests := st1.totalRequests + 1,
                            totalTokensUsed := st1.totalTokensUsed + tokens },
                 { sessionCalls := sCalls, messageCalls := mCalls })

/-- Helper: `ensureSession` never changes the selected model or either
usage counter, whichever branch it takes. -/
theorem ensureSession_fields (bS : SessionRequest → SessionResponse)
    (cwd : String) (st : ProxyState) :
    (ensureSession bS cwd st).2.1.currentModel = st.currentModel ∧
    (ensureSession bS cwd st).2.1.totalRequests = st.totalRequests ∧
    (ensureSession bS cwd st).2.1.totalTokensUsed = st.totalTokensUsed := by
  cases hs : st.currentSessionId with
  | some sid => simp [ensureSession, hs]
  | none =>
      cases hb : bS { workspace := cwd, mode := "agent" } with
      | ok id => simp [ensureSession, createSession, hs, hb]
      | notOk s => simp [ensureSession, createSession, hs, hb]

/-- C1: a `POST /v1/messages` request whose body lacks `max_tokens` and
carries a `messages` array is answered with exactly `{tokens: N}`,
where `N` sums, over the messages, the ceiling of the extracted text's
length over 4 (on naturals, `ceil (n / 4) = (n + 3) / 4`); the state is
returned untouched (no session is created or read — the result does not
depend on `st` at all) and the backend call log is empty. -/
theorem c1_count_only_probe (bS : SessionRequest → SessionResponse)
    (bM : MessageCall → MessageResponse) (cwd : String) (st : ProxyState)
    (body : MessagesBody) (msgs : List Message)
    (hmt : body.max_tokens = none) (hm : body.messages = some msgs) :
    handleMessages bS bM cwd st body =
      (.countTokens (msgs.foldl (fun acc msg =>
          acc + ((extractTextFromContent msg.content).length + 3) / 4) 0),
       st, CallLog.empty) := by
  unfold handleMessages
  rw [hmt, hm]
  simp [countTokensSum, estimateTokens]

/-- Witness for C1 at a concrete probe body: one user message of five
characters estimates to 2 tokens. -/
theorem c1_count_only_probe_witness :
    handleMessages (fun _ => .notOk "down") (fun _ => .notOk "down") "ws"
        initialState
        { max_tokens := none,
          messages := some [{ role := "user", content := .str "hello" }] } =
      (.countTokens 2, initialState, CallLog.empty) := by
  have h := c1_count_only_probe (fun _ => .notOk "down") (fun _ => .notOk "down")
      "ws" initialState
      { max_tokens := none,
        messages := some [{ role := "user", content := .str "hello" }] }
      [{ role := "user", content := .str "hello" }] rfl rfl
  exact h

/-- C2: the relay scans the message list from most recent to oldest and
selects the first entry whose role is `"user"` and whose extracted text
is non-empty, longer than 2 characters, and not the literal `"count"`.
When no such entry exists it answers `{text: "OK", tokens: 0}` with no
backend call; otherwise it sends exactly that entry's extracted text as
a single text part and, when the backend responds ok, returns the
in-order concatenation of the reply's `type == "text"` parts and the
reply's token total when present, else 0. -/
theorem c2_relay (backend : MessageCall → MessageResponse) (sid : String)
    (messages : List Message) :
    (messages.reverse.find? (fun m =>
        m.role == "user" &&
          ((extractTextFromContent m.content != "") &&
           (decide ((extractTextFromContent m.content).length > 2) &&
            (extractTextFromContent m.content != "count")))) = none →
      sendMessage backend sid messages = (.ok ("OK", 0), [])) ∧
    (∀ m reply,
      messages.reverse.find? (fun m =>
        m.role == "user" &&
          ((extractTextFromContent m.content != "") &&
           (decide ((extractTextFromContent m.content).length > 2) &&
            (extractTextFromContent m.content != "count")))) = some m →
      backend { sessionId := sid, text := extractTextFromContent m.content } =
        .ok reply →
      sendMessage backend sid messages =
        (.ok ((reply.parts.getD []).foldl
                (fun acc p => if p.type == "text" then acc ++ p.text else acc) "",
              (match reply.info with
               | some i =>
                   (match i.tokens with
                    | some t => t.total.getD 0
                    | none => 0)
               | none => 0)),
         [{ sessionId := sid, text := extractTextFromContent m.content }])) := by
  have hpred : (fun m : Message =>
      m.role == "user" &&
        ((extractTextFromContent m.content != "") &&
         (decide ((extractTextFromContent m.content).length > 2) &&
          (extractTextFromContent m.content != "count")))) = isForwardable := rfl
  constructor
  · intro h
    rw [hpred] at h
    unfold sendMessage selectUserMessage
    rw [h]
  · intro m reply h1 h2
    rw [hpred] at h1
    unfold sendMessage selectUserMessage
    rw [h1]
    simp only [h2]
    rfl

/-- Witness for C2: the sentinel `"count"` short-circuits without a
backend call, and a genuine user message is forwarded and its mocked
reply parsed. -/
theorem c2_relay_witness :
    sendMessage (fun _ => .notOk "down") "s1"
        [{ role := "user", content := .str "count" }] = (.ok ("OK", 0), []) ∧
    sendMessage
        (fun _ => .ok { parts := some [{ type := "text", text := "hel" },
                                       { type := "tool", text := "x" },
                                       { type := "text", text := "lo" }],
                        info := some { tokens := some { total := some 7 } } })
        "s1" [{ role := "user", content := .str "hi there" }] =
      (.ok ("hello", 7), [{ sessionId := "s1", text := "hi there" }]) := by
  constructor
  · exact (c2_relay (fun _ => .notOk "down") "s1"
      [{ role := "user", content := .str "count" }]).1 rfl
  · exact (c2_relay
      (fun _ => .ok { parts := some [{ type := "text", text := "hel" },
                                     { type := "tool", text := "x" },
                                     { type := "text", text := "lo" }],
                      info := some { tokens := some { total := some 7 } } })
      "s1" [{ role := "user", content := .str "hi there" }]).2
      { role := "user", content := .str "hi there" }
      { parts := some [{ type := "text", text := "hel" },
                       { type := "tool", text := "x" },
                       { type := "text", text := "lo" }],
        info := some { tokens := some { total := some 7 } } } rfl rfl

/-- C3: on a chat request (here: `max_tokens` present and `messages`
present) whose session step and relay both succeed, the handler bumps
`totalRequests` by exactly 1 and `totalTokensUsed` by exactly the
relay's reported tokens, and answers an envelope whose `content` is the
single `{type: "text", text}` block, whose `model` is the currently
selected model id, whose `stop_reason` is `"end_turn"`, whose
`usage.input_tokens` is the ceiling of the length of the serialized
entire message array over 4 (not a per-message extracted-text sum), and
whose `usage.output_tokens` is the ceiling of the reply text's length
over 4. -/
theorem c3_chat_success (bS : SessionRequest → SessionResponse)
    (bM : MessageCall → MessageResponse) (cwd : String) (st : ProxyState)
    (body : MessagesBody) (mt : Nat) (msgs : List Message)
    (sid : String) (st1 : ProxyState) (sCalls : List SessionRequest)
    (text : String) (tokens : Nat) (mCalls : List MessageCall)
    (hmt : body.max_tokens = some mt) (hm : body.messages = some msgs)
    (hens : ensureSession bS cwd st = (.ok sid, st1, sCalls))
    (hsend : sendMessage bM sid msgs = (.ok (text, tokens), mCalls)) :
    handleMessages bS bM cwd st body =
      (.chat { role := "assistant",
               content := [{ type := "text", text := text }],
               model := st.currentModel,
               stop_reason := "end_turn",
               usage := { input_tokens := ((stringifyMessages msgs).length + 3) / 4,
                          output_tokens := (text.length + 3) / 4 } },
       { currentSessionId := st1.currentSessionId,
         totalTokensUsed := st.totalTokensUsed + tokens,
         totalRequests := st.totalRequests + 1,
         currentModel := st.currentModel },
       { sessionCalls := sCalls, messageCalls := mCalls }) := by
  have hfields := ensureSession_fields bS cwd st
  rw [hens] at hfields
  unfold handleMessages
  rw [hmt, hm, hens]
  simp only [Option.isNone_some, Bool.false_and, Bool.false_eq_true, if_false]
  rw [hsend]
  simp only [estimateTokens]
  rw [hfields.1, hfields.2.1, hfields.2.2]

/-- Witness for C3 at a concrete state, body and mocked backend. -/
theorem c3_chat_success_witness :
    handleMessages (fun _ => .notOk "unused")
        (fun _ => .ok { parts := some [{ type := "text", text := "hello" }],
                        info := some { tokens := some { total := some 7 } } })
        "ws"
        { currentSessionId := some "s1", totalTokensUsed := 100,
          totalRequests := 5, currentModel := "openai/gpt-4o" }
        { max_tokens := some 50,
          messages := some [{ role := "user", content := .str "hi there" }] } =
      (.chat { role := "assistant",
               content := [{ type := "text", text := "hello" }],
               model := "openai/gpt-4o",
               stop_reason := "end_turn",
               usage := { input_tokens := 10, output_tokens := 2 } },
       { currentSessionId := some "s1", totalTokensUsed := 107,
         totalRequests := 6, currentModel := "openai/gpt-4o" },
       { sessionCalls := [],
         messageCalls := [{ sessionId := "s1", text := "hi there" }] }) := by
  have h := c3_chat_success (fun _ => .notOk "unused")
      (fun _ => .ok { parts := some [{ type := "text", text := "hello" }],
                      info := some { tokens := some { total := some 7 } } })
      "ws"
      { currentSessionId := some "s1", totalTokensUsed := 100,
        totalRequests := 5, currentModel := "openai/gpt-4o" }
      { max_tokens := some 50,
        messages := some [{ role := "user", content := .str "hi there" }] }
      50 [{ role := "user", content := .str "hi there" }]
      "s1"
      { currentSessionId := some "s1", totalTokensUsed := 100,
        totalRequests := 5, currentModel := "openai/gpt-4o" }
      [] "hello" 7 [{ sessionId := "s1", text := "hi there" }]
      rfl rfl rfl rfl
  exact h

/-- C4: selecting a model id absent from the registry answers the
400-class `"Model not found"` failure and leaves the whole state — in
particular `currentModel` and the held session id — unchanged; selecting
a registered id sets `currentModel` to it and clears the held session id
(the handler involves no backend oracle at all, so no backend call can
occur), which makes the next chat request recreate the session. -/
theorem c4_model_selection (st : ProxyState) (modelId : String) :
    (AVAILABLE_MODELS.find? (fun m => m.id == modelId) = none →
      handleModelSelect st modelId = (.failure 400 "Model not found", st)) ∧
    (∀ model, AVAILABLE_MODELS.find? (fun m => m.id == modelId) = some model →
      handleModelSelect st modelId =
        (.ok model,
         { currentSessionId := none,
           totalTokensUsed := st.totalTokensUsed,
           totalRequests := st.totalRequests,
           currentModel := modelId })) := by
  constructor
  · intro h
    unfold handleModelSelect
    rw [h]
  · intro model h
    unfold handleModelSelect
    rw [h]

/-- Witness for C4: the id `"no-such-model"` is rejected statelessly and
the registered `"openai/gpt-4o"` is selected, clearing the session. -/
theorem c4_model_selection_witness :
    handleModelSelect
        { currentSessionId := some "s1", totalTokensUsed := 3,
          totalRequests := 2, currentModel := "minimax-m2.5-free" }
        "no-such-model" =
      (.failure 400 "Model not found",
       { currentSessionId := some "s1", totalTokensUsed := 3,
         totalRequests := 2, currentModel := "minimax-m2.5-free" }) ∧
    handleModelSelect
        { currentSessionId := some "s1", totalTokensUsed := 3,
          totalRequests := 2, currentModel := "minimax-m2.5-free" }
        "openai/gpt-4o" =
      (.ok { id := "openai/gpt-4o", name := "GPT-4o", provider := "OpenAI" },
       { currentSessionId := none, totalTokensUsed := 3,
         totalRequests := 2, currentModel := "openai/gpt-4o" }) := by
  constructor
  · exact (c4_model_selection
      { currentSessionId := some "s1", totalTokensUsed := 3,
        totalRequests := 2, currentModel := "minimax-m2.5-free" }
      "no-such-model").1 (by decide)
  · exact (c4_model_selection
      { currentSessionId := some "s1", totalTokensUsed := 3,
        totalRequests := 2, currentModel := "minimax-m2.5-free" }
      "openai/gpt-4o").2
      { id := "openai/gpt-4o", name := "GPT-4o", provider := "OpenAI" }
      (by decide)

/-- C5: when a session id is already held, `ensureSession` hands it back
with the state untouched and an empty backend call log; when none is
held and the backend succeeds, it performs exactly one session-creation
call carrying the workspace hint and the fixed mode `"agent"`, stores
the returned identifier, and returns it. -/
theorem c5_ensure_session (bS : SessionRequest → SessionResponse)
    (cwd : String) (st : ProxyState) :
    (∀ sid, st.currentSessionId = some sid →
      ensureSession bS cwd st = (.ok sid, st, [])) ∧
    (∀ id, st.currentSessionId = none →
      bS { workspace := cwd, mode := "agent" } = .ok id →
      ensureSession bS cwd st =
        (.ok id,
         { st with currentSessionId := some id },
         [{ workspace := cwd, mode := "agent" }])) := by
  constructor
  · intro sid h
    unfold ensureSession
    rw [h]
  · intro id h hb
    unfold ensureSession createSession
    rw [h]
    simp only [hb]

/-- Witness for C5: a held id short-circuits; an empty state triggers
one creation call with mode `"agent"` and stores the new id. -/
theorem c5_ensure_session_witness :
    ensureSession (fun _ => .ok "fresh") "ws"
        { currentSessionId := some "held", totalTokensUsed := 0,
          totalRequests := 0, currentModel := "m" } =
      (.ok "held",
       { currentSessionId := some "held", totalTokensUsed := 0,
         totalRequests := 0, currentModel := "m" }, []) ∧
    ensureSession (fun _ => .ok "fresh") "ws" initialState =
      (.ok "fresh",
       { currentSessionId := some "fresh", totalTokensUsed := 0,
         totalRequests := 0, currentModel := "minimax-m2.5-free" },
       [{ workspace := "ws", mode := "agent" }]) := by
  constructor
  · exact (c5_ensure_session (fun _ => .ok "fresh") "ws"
      { currentSessionId := some "held", totalTokensUsed := 0,
        totalRequests := 0, currentModel := "m" }).1 "held" rfl
  · exact (c5_ensure_session (fun _ => .ok "fresh") "ws" initialState).2
      "fresh" rfl rfl

/-- C6: `extractTextFromContent` is total by construction (it is a Lean
function, defined by a complete case analysis on the content shape and
never throwing): a string input is returned unchanged; a sequence is
mapped elementwise — a string element to itself, an object element to
its `text` field when present and to the empty string otherwise, any
other element to the empty string — and concatenated in original order
with no separator; every other shape (object, null, number, boolean)
yields the empty string. -/
theorem c6_extract_text_total (s : String) (elems : List JsValue)
    (t : Option String) (n : Int) (b : Bool) :
    extractTextFromContent (.str s) = s ∧
    extractTextFromContent (.arr elems) =
      String.join (elems.map fun c =>
        match c with
        | .str s2 => s2
        | .obj (some t2) => t2
        | _ => "") ∧
    extractTextFromContent (.obj t) = "" ∧
    extractTextFromContent .null = "" ∧
    extractTextFromContent (.num n) = "" ∧
    extractTextFromContent (.bool b) = "" := by
  have hfun : (fun c : JsValue =>
      match c with
      | .str s2 => s2
      | .obj (some t2) => t2
      | _ => "") = contentElemText := by
    funext c
    cases c with
    | str s2 => rfl
    | arr elems2 => rfl
    | obj t2 => cases t2 <;> rfl
    | null => rfl
    | num n2 => rfl
    | bool b2 => rfl
  refine ⟨rfl, ?_, rfl, rfl, rfl, rfl⟩
  rw [hfun]
  rfl

/-- C7: the usage counters are naturals, hence never negative; the
reset-stats handler zeroes both unconditionally, so two consecutive
resets yield `{0, 0}` both times; a `/v1/messages` request answered
with an `apiError` leaves both counters exactly as they were; and
neither the reset-session handler nor the model-selection handler ever
changes them — only a successful chat translation does. -/
theorem c7_usage_counters (st : ProxyState)
    (bS : SessionRequest → SessionResponse) (bM : MessageCall → MessageResponse)
    (cwd : String) (st2 : ProxyState) (body : MessagesBody) (e : String)
    (stE : ProxyState) (log : CallLog)
    (hfail : handleMessages bS bM cwd st2 body = (.apiError e, stE, log))
    (bS2 : SessionRequest → SessionResponse) (cwd2 : String) (st3 : ProxyState)
    (r : Except String String) (st3' : ProxyState) (rCalls : List SessionRequest)
    (hreset : handleResetSession bS2 cwd2 st3 = (r, st3', rCalls))
    (modelId : String) (st4 : ProxyState) :
    ((handleResetStats st).totalRequests = 0 ∧
     (handleResetStats st).totalTokensUsed = 0) ∧
    ((handleResetStats (handleResetStats st)).totalRequests = 0 ∧
     (handleResetStats (handleResetStats st)).totalTokensUsed = 0) ∧
    (stE.totalRequests = st2.totalRequests ∧
     stE.totalTokensUsed = st2.totalTokensUsed) ∧
    (st3'.totalRequests = st3.totalRequests ∧
     st3'.totalTokensUsed = st3.totalTokensUsed) ∧
    ((handleModelSelect st4 modelId).2.totalRequests = st4.totalRequests ∧
     (handleModelSelect st4 modelId).2.totalTokensUsed = st4.totalTokensUsed) := by
  refine ⟨⟨rfl, rfl⟩, ⟨rfl, rfl⟩, ?_, ?_, ?_⟩
  · have hEf := ensureSession_fields bS cwd st2
    unfold handleMessages at hfail
    split at hfail
    · simp at hfail
    · split at hfail
      next e2 st1 sCalls heq =>
        rw [heq] at hEf
        simp only [Prod.mk.injEq, MessagesResponse.apiError.injEq] at hfail
        rw [← hfail.2.1]
        exact ⟨hEf.2.1, hEf.2.2⟩
      next sid st1 sCalls heq =>
        rw [heq] at hEf
        split at hfail
        · simp only [Prod.mk.injEq, MessagesResponse.apiError.injEq] at hfail
          rw [← hfail.2.1]
          exact ⟨hEf.2.1, hEf.2.2⟩
        · split at hfail
          next e3 mCalls heq2 =>
            simp only [Prod.mk.injEq, MessagesResponse.apiError.injEq] at hfail
            rw [← hfail.2.1]
            exact ⟨hEf.2.1, hEf.2.2⟩
          next text tokens mCalls heq2 =>
            simp at hfail
  · unfold handleResetSession at hreset
    split at hreset
    next id req heq =>
      simp only [Prod.mk.injEq] at hreset
      rw [← hreset.2.1]
      exact ⟨rfl, rfl⟩
    next e2 req heq =>
      simp only [Prod.mk.injEq] at hreset
      rw [← hreset.2.1]
      exact ⟨rfl, rfl⟩
  · cases hf : AVAILABLE_MODELS.find? (fun m => m.id == modelId) with
    | none => simp [handleModelSelect, hf]
    | some model => simp [handleModelSelect, hf]

/-- Witness for C7: a relay failure leaves the counters at 4 and 9, a
reset-session succeeds without touching them, and reset-stats zeroes
them. -/
theorem c7_usage_counters_witness :
    handleMessages (fun _ => .ok "u") (fun _ => .notOk "down") "ws"
        { currentSessionId := some "s1", totalTokensUsed := 9,
          totalRequests := 4, currentModel := "m" }
        { max_tokens := some 10,
          messages := some [{ role := "user", content := .str "hello!" }] } =
      (.apiError "Failed to send message: down",
       { currentSessionId := some "s1", totalTokensUsed := 9,
         totalRequests := 4, currentModel := "m" },
       { sessionCalls := [],
         messageCalls := [{ sessionId := "s1", text := "hello!" }] }) ∧
    handleResetSession (fun _ => .ok "n1") "ws"
        { currentSessionId := some "old", totalTokensUsed := 3,
          totalRequests := 4, currentModel := "m" } =
      (.ok "n1",
       { currentSessionId := some "n1", totalTokensUsed := 3,
         totalRequests := 4, currentModel := "m" },
       [{ workspace := "ws", mode := "agent" }]) ∧
    (handleResetStats { currentSessionId := some "s", totalTokensUsed := 1,
                        totalRequests := 2, currentModel := "m" }).totalRequests = 0 ∧
    (handleResetStats { currentSessionId := some "s", totalTokensUsed := 1,
                        totalRequests := 2, currentModel := "m" }).totalTokensUsed = 0 := by
  have h := c7_usage_counters
      { currentSessionId := some "s", totalTokensUsed := 1,
        totalRequests := 2, currentModel := "m" }
      (fun _ => .ok "u") (fun _ => .notOk "down") "ws"
      { currentSessionId := some "s1", totalTokensUsed := 9,
        totalRequests := 4, currentModel := "m" }
      { max_tokens := some 10,
        messages := some [{ role := "user", content := .str "hello!" }] }
      "Failed to send message: down"
      { currentSessionId := some "s1", totalTokensUsed := 9,
        totalRequests := 4, currentModel := "m" }
      { sessionCalls := [],
        messageCalls := [{ sessionId := "s1", text := "hello!" }] }
      rfl
      (fun _ => .ok "n1") "ws"
      { currentSessionId := some "old", totalTokensUsed := 3,
        totalRequests := 4, currentModel := "m" }
      (.ok "n1")
      { currentSessionId := some "n1", totalTokensUsed := 3,
        totalRequests := 4, currentModel := "m" }
      [{ workspace := "ws", mode := "agent" }]
      rfl "x" initialState
  exact ⟨rfl, rfl, h.1.1, h.1.2⟩

/-- C8 counterexample: with a session id `"held"` already stored, a
reset-session request whose backend creation call returns non-success
surfaces the typed error, yet the manager still holds `"held"` — the
rejected `await` skips the assignment, so on the explicit reset path
the held id is retained rather than cleared, contrary to the claim that
afterwards no session id is held on both paths. -/
theorem c8_counterexample :
    handleResetSession (fun _ => .notOk "bad") "ws"
        { currentSessionId := some "held", totalTokensUsed := 0,
          totalRequests := 0, currentModel := "m" } =
      (.error "Failed to create session: bad",
       { currentSessionId := some "held", totalTokensUsed := 0,
         totalRequests := 0, currentModel := "m" },
       [{ workspace := "ws", mode := "agent" }]) ∧
    (handleResetSession (fun _ => .notOk "bad") "ws"
        { currentSessionId := some "held", totalTokensUsed := 0,
          totalRequests := 0, currentModel := "m" }).2.1.currentSessionId ≠
      none := by
  exact ⟨rfl, by decide⟩

/-- C8 (amended): whenever the backend's session-creation endpoint
answers non-success, the failure surfaces as the typed
`"Failed to create session"` error; on the lazy creation path
(`ensureSession` during a chat request, reached only with no id held)
the manager afterwards still holds no session id, so the next call
retries creation from scratch; on the explicit reset path the whole
state — in particular any previously held id — is left unchanged rather
than cleared. -/
theorem c8_creation_failure (bS : SessionRequest → SessionResponse)
    (cwd : String) (st : ProxyState) (statusText : String)
    (hfailB : ∀ req, bS req = .notOk statusText) :
    (st.currentSessionId = none →
      ensureSession bS cwd st =
        (.error ("Failed to create session: " ++ statusText), st,
         [{ workspace := cwd, mode := "agent" }]) ∧
      (ensureSession bS cwd st).2.1.currentSessionId = none) ∧
    handleResetSession bS cwd st =
      (.error ("Failed to create session: " ++ statusText), st,
       [{ workspace := cwd, mode := "agent" }]) := by
  constructor
  · intro h
    have hcall : ensureSession bS cwd st =
        (.error ("Failed to create session: " ++ statusText), st,
         [{ workspace := cwd, mode := "agent" }]) := by
      simp [ensureSession, createSession, h, hfailB]
    refine ⟨hcall, ?_⟩
    rw [hcall]
    exact h
  · simp [handleResetSession, createSession, hfailB]

/-- Witness for C8 (amended) with a backend that always answers a 502
status text. -/
theorem c8_creation_failure_witness :
    ensureSession (fun _ => .notOk "502") "ws" initialState =
      (.error "Failed to create session: 502", initialState,
       [{ workspace := "ws", mode := "agent" }]) ∧
    handleResetSession (fun _ => .notOk "502") "ws" initialState =
      (.error "Failed to create session: 502", initialState,
       [{ workspace := "ws", mode := "agent" }]) := by
  have h := c8_creation_failure (fun _ => .notOk "502") "ws" initialState "502"
      (fun _ => rfl)
  exact ⟨(h.1 rfl).1, h.2⟩

/-- C9 counterexample: a chat request (`max_tokens` present) with the
`messages` field absent is not treated permissively: spreading the
absent value throws a TypeError, which the route's catch turns into an
HTTP 500 `api_error` response — a rejection, not an empty/benign
result. -/
theorem c9_counterexample :
    handleMessages (fun _ => .ok "s2") (fun _ => .notOk "unused") "ws"
        { currentSessionId := some "s1", totalTokensUsed := 0,
          totalRequests := 0, currentModel := "m" }
        { max_tokens := some 100, messages := none } =
      (.apiError spreadTypeError,
       { currentSessionId := some "s1", totalTokensUsed := 0,
         totalRequests := 0, currentModel := "m" },
       CallLog.empty) := rfl

/-- C9 (amended): on a chat request (`max_tokens` present) whose session
step succeeds, a present `messages` array containing no forwardable
user entry (malformed entries, wrong roles, unrecognized content
shapes) is treated permissively — the relay short-circuits to `"OK"`
with zero tokens, no backend message call is made, and a benign chat
envelope is returned; but an absent `messages` field makes the handler
throw while spreading it, and the request is answered with the HTTP 500
`api_error` rejection instead. -/
theorem c9_messages_validation (bS : SessionRequest → SessionResponse)
    (bM : MessageCall → MessageResponse) (cwd : String) (st : ProxyState)
    (body : MessagesBody) (mt : Nat) (sid : String) (st1 : ProxyState)
    (sCalls : List SessionRequest) (msgs : List Message)
    (hmt : body.max_tokens = some mt)
    (hens : ensureSession bS cwd st = (.ok sid, st1, sCalls)) :
    (body.messages = none →
      handleMessages bS bM cwd st body =
        (.apiError spreadTypeError, st1,
         { sessionCalls := sCalls, messageCalls := [] })) ∧
    (body.messages = some msgs →
      msgs.reverse.find? isForwardable = none →
      handleMessages bS bM cwd st body =
        (.chat { role := "assistant",
                 content := [{ type := "text", text := "OK" }],
                 model := st.currentModel,
                 stop_reason := "end_turn",
                 usage := { input_tokens := estimateTokens (stringifyMessages msgs),
                            output_tokens := 1 } },
         { currentSessionId := st1.currentSessionId,
           totalTokensUsed := st.totalTokensUsed,
           totalRequests := st.totalRequests + 1,
           currentModel := st.currentModel },
         { sessionCalls := sCalls, messageCalls := [] })) := by
  have hfields := ensureSession_fields bS cwd st
  rw [hens] at hfields
  constructor
  · intro hm
    unfold handleMessages
    rw [hmt, hm, hens]
    simp only [Option.isNone_some, Bool.false_and, Bool.false_eq_true, if_false]
  · intro hm hno
    have hsend : sendMessage bM sid msgs = (.ok ("OK", 0), []) := by
      unfold sendMessage selectUserMessage
      rw [hno]
    unfold handleMessages
    rw [hmt, hm, hens]
    simp only [Option.isNone_some, Bool.false_and, Bool.false_eq_true, if_false]
    rw [hsend]
    simp only [Nat.add_zero]
    have hOK : estimateTokens "OK" = 1 := rfl
    rw [hOK, hfields.1, hfields.2.1, hfields.2.2]

/-- Witness for C9 (amended): with a held session, an absent `messages`
field yields the 500 `api_error`, while a list whose only entry has
role `"assistant"` yields the benign `"OK"` envelope with no backend
message call. -/
theorem c9_messages_validation_witness :
    handleMessages (fun _ => .ok "u") (fun _ => .notOk "unused") "ws"
        { currentSessionId := some "s1", totalTokensUsed := 5,
          totalRequests := 7, currentModel := "m" }
        { max_tokens := some 10, messages := none } =
      (.apiError spreadTypeError,
       { currentSessionId := some "s1", totalTokensUsed := 5,
         totalRequests := 7, currentModel := "m" },
       CallLog.empty) ∧
    handleMessages (fun _ => .ok "u") (fun _ => .notOk "unused") "ws"
        { currentSessionId := some "s1", totalTokensUsed := 5,
          totalRequests := 7, currentModel := "m" }
        { max_tokens := some 10,
          messages := some [{ role := "assistant", content := .str "yo" }] } =
      (.chat { role := "assistant",
               content := [{ type := "text", text := "OK" }],
               model := "m",
               stop_reason := "end_turn",
               usage := { input_tokens := 10, output_tokens := 1 } },
       { currentSessionId := some "s1", totalTokensUsed := 5,
         totalRequests := 8, currentModel := "m" },
       CallLog.empty) := by
  have h1 := c9_messages_validation (fun _ => .ok "u") (fun _ => .notOk "unused")
      "ws"
      { currentSessionId := some "s1", totalTokensUsed := 5,
        totalRequests := 7, currentModel := "m" }
      { max_tokens := some 10, messages := none }
      10 "s1"
      { currentSessionId := some "s1", totalTokensUsed := 5,
        totalRequests := 7, currentModel := "m" }
      [] [] rfl rfl
  have h2 := c9_messages_validation (fun _ => .ok "u") (fun _ => .notOk "unused")
      "ws"
      { currentSessionId := some "s1", totalTokensUsed := 5,
        totalRequests := 7, currentModel := "m" }
      { max_tokens := some 10,
        messages := some [{ role := "assistant", content := .str "yo" }] }
      10 "s1"
      { currentSessionId := some "s1", totalTokensUsed := 5,
        totalRequests := 7, currentModel := "m" }
      [] [{ role := "assistant", content := .str "yo" }] rfl rfl
  exact ⟨h1.1 rfl, h2.2 rfl rfl⟩

/-- C10: a top-level content value that is neither a string nor a
sequence extracts to the empty string even when it is an object
carrying a `text` field — `extractTextFromContent` on the object with
`text := "hi"` is `""` — and consequently only a top-level string or a
top-level sequence can ever produce non-empty extracted text. -/
theorem c10_toplevel_object (t : Option String) (n : Int) (b : Bool) :
    extractTextFromContent (.obj (some "hi")) = "" ∧
    extractTextFromContent (.obj t) = "" ∧
    extractTextFromContent .null = "" ∧
    extractTextFromContent (.num n) = "" ∧
    extractTextFromContent (.bool b) = "" ∧
    (∀ c : JsValue, extractTextFromContent c ≠ "" →
      (∃ s, c = .str s) ∨ (∃ elems, c = .arr elems)) := by
  refine ⟨rfl, rfl, rfl, rfl, rfl, ?_⟩
  intro c hc
  cases c with
  | str s => exact Or.inl ⟨s, rfl⟩
  | arr elems => exact Or.inr ⟨elems, rfl⟩
  | obj t2 => exact absurd rfl hc
  | null => exact absurd rfl hc
  | num n2 => exact absurd rfl hc
  | bool b2 => exact absurd rfl hc

/-- Witness for C10: the object with `text := "hi"` extracts to `""`,
while a string whose extraction is non-empty is indeed a top-level
string. -/
theorem c10_toplevel_object_witness :
    extractTextFromContent (.obj (some "hi")) = "" ∧
    ((∃ s, JsValue.str "hi" = .str s) ∨
     (∃ elems, JsValue.str "hi" = .arr elems)) := by
  have h := c10_toplevel_object none 0 true
  exact ⟨h.1, h.2.2.2.2.2 (.str "hi") (by decide)⟩

end OCBridge
